import Mathlib

/-!
Verification of the core of `pg_check_conn` (`src/pg_check_conn.cpp`): the
option parser, the connection-string builder, the debug echo, and the
reporter in `main`.  C++ strings are embedded as `List Char`; the process
argument vector (excluding the program name) as `List (List Char)`; the
external libpq call `PQconnectdb`/`PQstatus`/`PQerrorMessage` as an
oracle record `ProbeResult` supplied to the run function.
-/

namespace PgCheckConn

/-- A C++ `std::string`, embedded as its character list. -/
abbrev Str := List Char

/-- Characters of a Lean string literal, for writing `Str` constants. -/
def str (s : String) : Str := s.data

/-- `whitespace[] = " \t\n\r\f\v"` — membership test used by
`find_first_not_of` / `find_last_not_of` in the source. -/
def is_ws (c : Char) : Bool :=
  c = ' ' || c = '\t' || c = '\n' || c = '\r' || c = '\x0c' || c = '\x0b'

/-- `ltrim`: erase the longest leading run of whitespace. -/
def ltrim (s : Str) : Str := s.dropWhile is_ws

/-- `rtrim`: erase everything after the last non-whitespace character;
a string of only whitespace becomes empty. -/
def rtrim (s : Str) : Str := (s.reverse.dropWhile is_ws).reverse

/-- `trim(str) = ltrim(rtrim(str))`. -/
def trim (s : Str) : Str := ltrim (rtrim s)

/-- `is_empty(const std::string&) = arg.empty()`. -/
def is_empty : Str → Bool
  | [] => true
  | _ :: _ => false

/-- The two exception types thrown by the argument parser:
`std::out_of_range` from `parse_next_arg` and `std::runtime_error`
from `parse_equal_arg`; both carry the error message. -/
inductive ParseError where
  | out_of_range (msg : Str)
  | runtime_error (msg : Str)
deriving DecidableEq, Repr

/-- The message carried by a parse exception (`ex.what()`). -/
def ParseError.msg : ParseError → Str
  | .out_of_range m => m
  | .runtime_error m => m

/-- `parse_next_arg(argc, argv, index, errMsg)`, with `rest` the tokens
after position `index`.  Succeeds with the trimmed next token exactly
when a next token exists (`index+1 < argc`), its first character is not
`'-'` (`argv[index+1][0] != '-'`; an empty token's `[0]` is `'\0'`),
and it trims to a non-empty string; otherwise throws `std::out_of_range`. -/
def parse_next_arg (rest : List Str) (errMsg : Str) : Except ParseError Str :=
  match rest with
  | next :: _ =>
    if next.head? = some '-' then .error (.out_of_range errMsg)
    else
      let a := trim next
      if is_empty a then .error (.out_of_range errMsg) else .ok a
  | [] => .error (.out_of_range errMsg)

/-- `arg.substr(pos + 1)` for `pos = arg.find('=')`: the characters after
the first `'='`, or `none` when no `'='` occurs (`pos == npos`). -/
def after_first_eq : Str → Option Str
  | [] => none
  | c :: rest => if c = '=' then some rest else after_first_eq rest

/-- `parse_equal_arg(arg, errMsg)`: take the substring after the first
`'='` of the same token, trim it, and succeed when non-empty;
otherwise throw `std::runtime_error`. -/
def parse_equal_arg (arg : Str) (errMsg : Str) : Except ParseError Str :=
  match after_first_eq arg with
  | some s =>
    let a := trim s
    if is_empty a then .error (.runtime_error errMsg) else .ok a
  | none => .error (.runtime_error errMsg)

/-- The Connection Specification: the six local `std::string`s of `main`.
As in the source, an absent field is the empty string. -/
structure ConnSpec where
  database : Str := []
  username : Str := []
  host : Str := []
  hostaddr : Str := []
  port : Str := []
  timeout : Str := []
deriving DecidableEq, Repr

instance {ε α : Type} [DecidableEq ε] [DecidableEq α] : DecidableEq (Except ε α) := fun x y =>
  match x, y with
  | .ok a, .ok b => if h : a = b then .isTrue (by rw [h]) else .isFalse (by simp [h])
  | .error a, .error b => if h : a = b then .isTrue (by rw [h]) else .isFalse (by simp [h])
  | .ok _, .error _ => .isFalse (by simp)
  | .error _, .ok _ => .isFalse (by simp)

/-- The option-matching loop of `main` (`for (index=1; index<argc; ++index)`),
with `args` the tokens from the cursor position on.  A short option
consumes the next token via `parse_next_arg` and skips it (`index++`);
a long option is matched by fixed-length prefix (`opt.substr(0, n)`)
and parsed in place via `parse_equal_arg`; unrecognized tokens are
ignored.  A thrown parse exception aborts the loop. -/
def parseLoop : List Str → ConnSpec → Except ParseError ConnSpec
  | [], spec => .ok spec
  | opt :: rest, spec =>
    if opt = str "-d" then
      match rest with
      | [] => .error (.out_of_range (str "missing database argument"))
      | next :: rest2 =>
        match parse_next_arg (next :: rest2) (str "missing database argument") with
        | .ok v => parseLoop rest2 { spec with database := v }
        | .error e => .error e
    else if opt.take 8 = str "--dbname" then
      match parse_equal_arg opt (str "missing database argument") with
      | .ok v => parseLoop rest { spec with database := v }
      | .error e => .error e
    else if opt = str "-U" then
      match rest with
      | [] => .error (.out_of_range (str "missing username argument"))
      | next :: rest2 =>
        match parse_next_arg (next :: rest2) (str "missing username argument") with
        | .ok v => parseLoop rest2 { spec with username := v }
        | .error e => .error e
    else if opt.take 10 = str "--username" then
      match parse_equal_arg opt (str "missing username argument") with
      | .ok v => parseLoop rest { spec with username := v }
      | .error e => .error e
    else if opt = str "-h" then
      match rest with
      | [] => .error (.out_of_range (str "missing hostname argument"))
      | next :: rest2 =>
        match parse_next_arg (next :: rest2) (str "missing hostname argument") with
        | .ok v => parseLoop rest2 { spec with host := v }
        | .error e => .error e
    else if opt.take 10 = str "--hostname" then
      match parse_equal_arg opt (str "missing hostname argument") with
      | .ok v => parseLoop rest { spec with host := v }
      | .error e => .error e
    else if opt.take 10 = str "--hostaddr" then
      match parse_equal_arg opt (str "missing hostaddr argument") with
      | .ok v => parseLoop rest { spec with hostaddr := v }
      | .error e => .error e
    else if opt = str "-p" then
      match rest with
      | [] => .error (.out_of_range (str "missing port argument"))
      | next :: rest2 =>
        match parse_next_arg (next :: rest2) (str "missing port argument") with
        | .ok v => parseLoop rest2 { spec with port := v }
        | .error e => .error e
    else if opt.take 6 = str "--port" then
      match parse_equal_arg opt (str "missing port argument") with
      | .ok v => parseLoop rest { spec with port := v }
      | .error e => .error e
    else if opt = str "-t" then
      match rest with
      | [] => .error (.out_of_range (str "missing timeout argument"))
      | next :: rest2 =>
        match parse_next_arg (next :: rest2) (str "missing timeout argument") with
        | .ok v => parseLoop rest2 { spec with timeout := v }
        | .error e => .error e
    else if opt.take 9 = str "--timeout" then
      match parse_equal_arg opt (str "missing timeout argument") with
      | .ok v => parseLoop rest { spec with timeout := v }
      | .error e => .error e
    else
      parseLoop rest spec

/-- Parse the argument vector (excluding `argv[0]`, the program name)
starting from the all-absent specification. -/
def parseArgs (args : List Str) : Except ParseError ConnSpec :=
  parseLoop args {}

/-- The connection-string builder of `main`: the `std::stringstream`
accumulation, appending `key=value ` for each non-empty field in the
fixed source order. -/
def build (spec : ConnSpec) : Str :=
  let cs : Str := []
  let cs := if is_empty spec.database then cs else cs ++ str "dbname=" ++ spec.database ++ str " "
  let cs := if is_empty spec.username then cs else cs ++ str "user=" ++ spec.username ++ str " "
  let cs := if is_empty spec.hostaddr then cs else cs ++ str "hostaddr=" ++ spec.hostaddr ++ str " "
  let cs := if is_empty spec.host then cs else cs ++ str "host=" ++ spec.host ++ str " "
  let cs := if is_empty spec.port then cs else cs ++ str "port=" ++ spec.port ++ str " "
  let cs := if is_empty spec.timeout then cs else cs ++ str "connect_timeout=" ++ spec.timeout ++ str " "
  cs

/-- An output channel of the process. -/
inductive Channel where
  | stdout
  | stderr
deriving DecidableEq, Repr

/-- The observable result of the external `PQconnectdb` call:
whether a handle was returned (`conn != NULL`), the `PQstatus` value
(`CONNECTION_OK = 0` is first in libpq's `ConnStatusType`), and the
`PQerrorMessage` text. -/
structure ProbeResult where
  handle : Bool
  status : Nat
  errMsg : Str
deriving DecidableEq, Repr

/-- What a run of the process does: the lines written, in order, each
with its channel, and the value returned from `main`. -/
structure RunResult where
  output : List (Channel × Str)
  exitCode : Int
deriving DecidableEq, Repr

/-- The debug echo of `main`: `getenv("PGDEBUG")` is `pgdebug`
(`none` when unset), and the rendered string is echoed to stdout when
`pgdebug && pgdebug[0] == '1'` (for the empty string, `[0]` is `'\0'`). -/
def debugEcho (pgdebug : Option Str) (connstr : Str) : List (Channel × Str) :=
  match pgdebug with
  | some d => if d.head? = some '1' then [(Channel.stdout, str "Conn string: " ++ connstr)] else []
  | none => []

/-- `main`: parse the arguments; on a parse exception the
`std::exception` handler writes `Error: <what>` to stderr and returns
`-1`.  Otherwise build the connection string, echo it when `PGDEBUG`
asks, and probe.  `conn == NULL || PQstatus(conn) != CONNECTION_OK`
throws `ConnException(PQerrorMessage(conn))`, whose handler writes
`Error: <what>` to stdout and returns `PQstatus(conn)` when
`conn != NULL`, else `-1`.  Otherwise return `0`. -/
def pg_check_conn (args : List Str) (pgdebug : Option Str) (pr : ProbeResult) : RunResult :=
  match parseArgs args with
  | .error e =>
    { output := [(Channel.stderr, str "Error: " ++ e.msg)], exitCode := -1 }
  | .ok spec =>
    let connstr := build spec
    let dbg := debugEcho pgdebug connstr
    if pr.handle = false ∨ pr.status ≠ 0 then
      { output := dbg ++ [(Channel.stdout, str "Error: " ++ pr.errMsg)],
        exitCode := if pr.handle then (pr.status : Int) else -1 }
    else
      { output := dbg, exitCode := 0 }

/-- The Outcome of a run, as the spec's taxonomy has it: `Success`,
`ConnectionRefused(message, statusCode)` remembering whether a handle
was obtained, or an unexpected failure (which includes parse errors). -/
inductive Outcome where
  | success
  | connectionRefused (msg : Str) (handleObtained : Bool) (code : Nat)
  | unexpectedFailure (msg : Str)
deriving DecidableEq, Repr

/-- The Result Reporter table written from the spec's words (§4.5),
for comparison with the run function embedded from the source —
Success prints nothing and exits 0; `ConnectionRefused(msg, code)`
prints `Error: <msg>` on stdout and exits with `code` if a handle
existed, else `-1`; an unexpected failure (parse error included)
prints `Error: <msg>` on stderr and exits `-1`. -/
def spec_report : Outcome → RunResult
  | .success => { output := [], exitCode := 0 }
  | .connectionRefused m h c =>
    { output := [(Channel.stdout, str "Error: " ++ m)],
      exitCode := if h then (c : Int) else -1 }
  | .unexpectedFailure m =>
    { output := [(Channel.stderr, str "Error: " ++ m)], exitCode := -1 }

/-- The outcome a run classifies: a parse exception is an unexpected
failure; a missing handle or non-OK status is a classified connection
failure; otherwise success. -/
def runOutcome (args : List Str) (pr : ProbeResult) : Outcome :=
  match parseArgs args with
  | .error e => .unexpectedFailure e.msg
  | .ok _ =>
    if pr.handle = false ∨ pr.status ≠ 0 then .connectionRefused pr.errMsg pr.handle pr.status
    else .success

/-- The debug lines a run writes: none when parsing fails (the
exception is thrown before the echo), else the `PGDEBUG` echo of the
built string. -/
def debugLines (args : List Str) (pgdebug : Option Str) : List (Channel × Str) :=
  match parseArgs args with
  | .error _ => []
  | .ok spec => debugEcho pgdebug (build spec)

/-! ### Lemmas about trimming -/

lemma dropWhile_head_not {α} {p : α → Bool} :
    ∀ {l : List α} {c : α}, (l.dropWhile p).head? = some c → p c = false := by
  intro l
  induction l with
  | nil => intro c h; simp [List.dropWhile] at h
  | cons a t ih =>
    intro c h
    cases hp : p a with
    | true => exact ih (by simpa [List.dropWhile_cons, hp] using h)
    | false =>
      have : a = c := by simpa [List.dropWhile_cons, hp] using h
      rw [← this]; exact hp

lemma dropWhile_dropWhile {α} (p : α → Bool) (l : List α) :
    (l.dropWhile p).dropWhile p = l.dropWhile p := by
  cases h : l.dropWhile p with
  | nil => simp
  | cons a t =>
    have ha : p a = false := dropWhile_head_not (by rw [h]; rfl)
    simp [List.dropWhile_cons, ha]

lemma ltrim_trim (s : Str) : ltrim (trim s) = trim s := by
  simp only [trim, ltrim, dropWhile_dropWhile]

lemma getLast?_rtrim_not {s : Str} {c : Char}
    (h : (rtrim s).getLast? = some c) : is_ws c = false := by
  rw [rtrim, List.getLast?_reverse] at h
  exact dropWhile_head_not h

lemma getLast?_ltrim {s : Str} (hs : ltrim s ≠ []) : (ltrim s).getLast? = s.getLast? := by
  conv_rhs => rw [← List.takeWhile_append_dropWhile is_ws s]
  rw [ltrim] at *
  rw [List.getLast?_append_of_ne_nil _ hs]

lemma getLast?_trim_not {s : Str} {c : Char}
    (h : (trim s).getLast? = some c) : is_ws c = false := by
  rw [trim] at h
  have hne : ltrim (rtrim s) ≠ [] := by
    intro hnil; rw [hnil] at h; simp at h
  rw [getLast?_ltrim hne] at h
  exact getLast?_rtrim_not h

lemma rtrim_of_getLast {s : Str} (h : ∀ c, s.getLast? = some c → is_ws c = false) :
    rtrim s = s := by
  rw [rtrim]
  cases hs : s.reverse with
  | nil =>
    have : s = [] := by simpa using congrArg List.reverse hs
    simp [this]
  | cons a t =>
    have ha : s.getLast? = some a := by rw [← List.head?_reverse, hs]; rfl
    rw [List.dropWhile_cons, h a ha]
    simp only [Bool.false_eq_true, if_false]
    rw [← hs, List.reverse_reverse]

lemma trim_trim (s : Str) : trim (trim s) = trim s := by
  conv_lhs => rw [trim]
  rw [rtrim_of_getLast (fun c hc => getLast?_trim_not hc), ltrim_trim]

/-! ### Characterization of the two low-level argument parsers -/

lemma is_empty_iff {s : Str} : is_empty s = true ↔ s = [] := by
  cases s <;> simp [is_empty]

lemma parse_next_arg_nil (m : Str) : parse_next_arg [] m = .error (.out_of_range m) := rfl

lemma parse_next_arg_dash {v : Str} (rest : List Str) {m : Str} (h : v.head? = some '-') :
    parse_next_arg (v :: rest) m = .error (.out_of_range m) := by
  simp [parse_next_arg, h]

lemma parse_next_arg_blank {v : Str} (rest : List Str) {m : Str} (h : trim v = []) :
    parse_next_arg (v :: rest) m = .error (.out_of_range m) := by
  by_cases hd : v.head? = some '-' <;> simp [parse_next_arg, hd, h, is_empty]

lemma parse_next_arg_ok {v : Str} (rest : List Str) {m : Str}
    (h1 : v.head? ≠ some '-') (h2 : trim v ≠ []) :
    parse_next_arg (v :: rest) m = .ok (trim v) := by
  cases ht : trim v with
  | nil => exact absurd ht h2
  | cons a t => simp [parse_next_arg, h1, ht, is_empty]

lemma good_of_parse_next {rest : List Str} {m w : Str}
    (h : parse_next_arg rest m = .ok w) : w ≠ [] ∧ trim w = w := by
  cases rest with
  | nil => simp [parse_next_arg] at h
  | cons v r =>
    by_cases hd : v.head? = some '-'
    · simp [parse_next_arg, hd] at h
    · cases ht : trim v with
      | nil => simp [parse_next_arg, hd, ht, is_empty] at h
      | cons a t =>
        have hw : trim v = w := by simpa [parse_next_arg, hd, ht, is_empty] using h
        exact ⟨by rw [← hw, ht]; simp, by rw [← hw, trim_trim]⟩

lemma after_first_eq_of_not_mem : ∀ {s : Str}, '=' ∉ s → after_first_eq s = none := by
  intro s
  induction s with
  | nil => intro _; rfl
  | cons c t ih =>
    intro h
    have hc : ¬ c = '=' := fun hc => h (by rw [hc]; exact List.mem_cons_self _ _)
    simp only [after_first_eq, if_neg hc]
    exact ih (fun ht => h (List.mem_cons_of_mem _ ht))

lemma after_first_eq_append {pre : Str} (post : Str) (h : '=' ∉ pre) :
    after_first_eq (pre ++ '=' :: post) = some post := by
  induction pre with
  | nil => simp [after_first_eq]
  | cons c t ih =>
    have hc : ¬ c = '=' := fun hc => h (by rw [hc]; exact List.mem_cons_self _ _)
    simp only [List.cons_append, after_first_eq, if_neg hc]
    exact ih (fun ht => h (List.mem_cons_of_mem _ ht))

lemma parse_equal_arg_no_eq {arg : Str} (h : '=' ∉ arg) (m : Str) :
    parse_equal_arg arg m = .error (.runtime_error m) := by
  simp [parse_equal_arg, after_first_eq_of_not_mem h]

lemma parse_equal_arg_append {pre : Str} (post : Str) {m : Str} (h : '=' ∉ pre) :
    parse_equal_arg (pre ++ '=' :: post) m =
      if trim post = [] then .error (.runtime_error m) else .ok (trim post) := by
  rw [parse_equal_arg, after_first_eq_append post h]
  cases ht : trim post with
  | nil => simp [ht, is_empty]
  | cons a t => simp [ht, is_empty]

lemma good_of_parse_equal {arg m w : Str}
    (h : parse_equal_arg arg m = .ok w) : w ≠ [] ∧ trim w = w := by
  cases he : after_first_eq arg with
  | none => simp [parse_equal_arg, he] at h
  | some s =>
    cases ht : trim s with
    | nil => simp [parse_equal_arg, he, ht, is_empty] at h
    | cons a t =>
      have hw : trim s = w := by simpa [parse_equal_arg, he, ht, is_empty] using h
      exact ⟨by rw [← hw, ht]; simp, by rw [← hw, trim_trim]⟩

/-! ### One-step evaluation of the parse loop -/

lemma parseLoop_short_d (v : Str) (rest : List Str) (spec : ConnSpec)
    (h1 : v.head? ≠ some '-') (h2 : trim v ≠ []) :
    parseLoop (str "-d" :: v :: rest) spec = parseLoop rest { spec with database := trim v } := by
  simp [parseLoop, parse_next_arg_ok rest h1 h2]

lemma parseLoop_short_U (v : Str) (rest : List Str) (spec : ConnSpec)
    (h1 : v.head? ≠ some '-') (h2 : trim v ≠ []) :
    parseLoop (str "-U" :: v :: rest) spec = parseLoop rest { spec with username := trim v } := by
  simp [parseLoop, parse_next_arg_ok rest h1 h2, str]

lemma parseLoop_short_h (v : Str) (rest : List Str) (spec : ConnSpec)
    (h1 : v.head? ≠ some '-') (h2 : trim v ≠ []) :
    parseLoop (str "-h" :: v :: rest) spec = parseLoop rest { spec with host := trim v } := by
  simp [parseLoop, parse_next_arg_ok rest h1 h2, str]

lemma parseLoop_short_p (v : Str) (rest : List Str) (spec : ConnSpec)
    (h1 : v.head? ≠ some '-') (h2 : trim v ≠ []) :
    parseLoop (str "-p" :: v :: rest) spec = parseLoop rest { spec with port := trim v } := by
  simp [parseLoop, parse_next_arg_ok rest h1 h2, str]

lemma parseLoop_short_t (v : Str) (rest : List Str) (spec : ConnSpec)
    (h1 : v.head? ≠ some '-') (h2 : trim v ≠ []) :
    parseLoop (str "-t" :: v :: rest) spec = parseLoop rest { spec with timeout := trim v } := by
  simp [parseLoop, parse_next_arg_ok rest h1 h2, str]

lemma parseLoop_short_d_err (v : Str) (rest : List Str) (spec : ConnSpec)
    (h : v.head? = some '-' ∨ trim v = []) :
    parseLoop (str "-d" :: v :: rest) spec =
      .error (.out_of_range (str "missing database argument")) := by
  rcases h with h | h
  · simp [parseLoop, parse_next_arg_dash rest h]
  · simp [parseLoop, parse_next_arg_blank rest h]

lemma parseLoop_long_dbname (v : Str) (rest : List Str) (spec : ConnSpec) :
    parseLoop ((str "--dbname=" ++ v) :: rest) spec =
      if trim v = [] then .error (.runtime_error (str "missing database argument"))
      else parseLoop rest { spec with database := trim v } := by
  have hpe : parse_equal_arg (str "--dbname=" ++ v) (str "missing database argument") =
      if trim v = [] then .error (.runtime_error (str "missing database argument"))
      else .ok (trim v) := by
    rw [show str "--dbname=" ++ v = str "--dbname" ++ '=' :: v from rfl]
    exact parse_equal_arg_append v (by decide)
  rw [parseLoop.eq_def]
  simp only [str, List.cons_append, List.nil_append] at hpe
  cases ht : trim v with
  | nil => simp [str, ht, hpe]
  | cons a t => simp [str, ht, hpe]

lemma parseLoop_long_username (v : Str) (rest : List Str) (spec : ConnSpec) :
    parseLoop ((str "--username=" ++ v) :: rest) spec =
      if trim v = [] then .error (.runtime_error (str "missing username argument"))
      else parseLoop rest { spec with username := trim v } := by
  have hpe : parse_equal_arg (str "--username=" ++ v) (str "missing username argument") =
      if trim v = [] then .error (.runtime_error (str "missing username argument"))
      else .ok (trim v) := by
    rw [show str "--username=" ++ v = str "--username" ++ '=' :: v from rfl]
    exact parse_equal_arg_append v (by decide)
  rw [parseLoop.eq_def]
  simp only [str, List.cons_append, List.nil_append] at hpe
  cases ht : trim v with
  | nil => simp [str, ht, hpe]
  | cons a t => simp [str, ht, hpe]

lemma parseLoop_long_hostname (v : Str) (rest : List Str) (spec : ConnSpec) :
    parseLoop ((str "--hostname=" ++ v) :: rest) spec =
      if trim v = [] then .error (.runtime_error (str "missing hostname argument"))
      else parseLoop rest { spec with host := trim v } := by
  have hpe : parse_equal_arg (str "--hostname=" ++ v) (str "missing hostname argument") =
      if trim v = [] then .error (.runtime_error (str "missing hostname argument"))
      else .ok (trim v) := by
    rw [show str "--hostname=" ++ v = str "--hostname" ++ '=' :: v from rfl]
    exact parse_equal_arg_append v (by decide)
  rw [parseLoop.eq_def]
  simp only [str, List.cons_append, List.nil_append] at hpe
  cases ht : trim v with
  | nil => simp [str, ht, hpe]
  | cons a t => simp [str, ht, hpe]

lemma parseLoop_long_port (v : Str) (rest : List Str) (spec : ConnSpec) :
    parseLoop ((str "--port=" ++ v) :: rest) spec =
      if trim v = [] then .error (.runtime_error (str "missing port argument"))
      else parseLoop rest { spec with port := trim v } := by
  have hpe : parse_equal_arg (str "--port=" ++ v) (str "missing port argument") =
      if trim v = [] then .error (.runtime_error (str "missing port argument"))
      else .ok (trim v) := by
    rw [show str "--port=" ++ v = str "--port" ++ '=' :: v from rfl]
    exact parse_equal_arg_append v (by decide)
  rw [parseLoop.eq_def]
  simp only [str, List.cons_append, List.nil_append] at hpe
  cases ht : trim v with
  | nil => simp [str, ht, hpe]
  | cons a t => simp [str, ht, hpe]

lemma parseLoop_long_timeout (v : Str) (rest : List Str) (spec : ConnSpec) :
    parseLoop ((str "--timeout=" ++ v) :: rest) spec =
      if trim v = [] then .error (.runtime_error (str "missing timeout argument"))
      else parseLoop rest { spec with timeout := trim v } := by
  have hpe : parse_equal_arg (str "--timeout=" ++ v) (str "missing timeout argument") =
      if trim v = [] then .error (.runtime_error (str "missing timeout argument"))
      else .ok (trim v) := by
    rw [show str "--timeout=" ++ v = str "--timeout" ++ '=' :: v from rfl]
    exact parse_equal_arg_append v (by decide)
  rw [parseLoop.eq_def]
  simp only [str, List.cons_append, List.nil_append] at hpe
  cases ht : trim v with
  | nil => simp [str, ht, hpe]
  | cons a t => simp [str, ht, hpe]

/-! ### The field invariant kept by the parse loop -/

/-- A stored field is the empty string (absent) or non-empty and
invariant under trimming (no leading or trailing whitespace). -/
def GoodField (s : Str) : Prop := s = [] ∨ (s ≠ [] ∧ trim s = s)

/-- All six fields of a Connection Specification satisfy `GoodField`. -/
def GoodSpec (s : ConnSpec) : Prop :=
  GoodField s.database ∧ GoodField s.username ∧ GoodField s.host ∧
    GoodField s.hostaddr ∧ GoodField s.port ∧ GoodField s.timeout

lemma GoodSpec_empty : GoodSpec {} :=
  ⟨Or.inl rfl, Or.inl rfl, Or.inl rfl, Or.inl rfl, Or.inl rfl, Or.inl rfl⟩

lemma GoodSpec_update_database {spec : ConnSpec} {v : Str} (hg : GoodSpec spec)
    (hv : v ≠ [] ∧ trim v = v) : GoodSpec { spec with database := v } :=
  ⟨Or.inr hv, hg.2.1, hg.2.2.1, hg.2.2.2.1, hg.2.2.2.2.1, hg.2.2.2.2.2⟩

lemma GoodSpec_update_username {spec : ConnSpec} {v : Str} (hg : GoodSpec spec)
    (hv : v ≠ [] ∧ trim v = v) : GoodSpec { spec with username := v } :=
  ⟨hg.1, Or.inr hv, hg.2.2.1, hg.2.2.2.1, hg.2.2.2.2.1, hg.2.2.2.2.2⟩

lemma GoodSpec_update_host {spec : ConnSpec} {v : Str} (hg : GoodSpec spec)
    (hv : v ≠ [] ∧ trim v = v) : GoodSpec { spec with host := v } :=
  ⟨hg.1, hg.2.1, Or.inr hv, hg.2.2.2.1, hg.2.2.2.2.1, hg.2.2.2.2.2⟩

lemma GoodSpec_update_hostaddr {spec : ConnSpec} {v : Str} (hg : GoodSpec spec)
    (hv : v ≠ [] ∧ trim v = v) : GoodSpec { spec with hostaddr := v } :=
  ⟨hg.1, hg.2.1, hg.2.2.1, Or.inr hv, hg.2.2.2.2.1, hg.2.2.2.2.2⟩

lemma GoodSpec_update_port {spec : ConnSpec} {v : Str} (hg : GoodSpec spec)
    (hv : v ≠ [] ∧ trim v = v) : GoodSpec { spec with port := v } :=
  ⟨hg.1, hg.2.1, hg.2.2.1, hg.2.2.2.1, Or.inr hv, hg.2.2.2.2.2⟩

lemma GoodSpec_update_timeout {spec : ConnSpec} {v : Str} (hg : GoodSpec spec)
    (hv : v ≠ [] ∧ trim v = v) : GoodSpec { spec with timeout := v } :=
  ⟨hg.1, hg.2.1, hg.2.2.1, hg.2.2.2.1, hg.2.2.2.2.1, Or.inr hv⟩

lemma parseLoop_good (args : List Str) (spec : ConnSpec) :
    GoodSpec spec → ∀ spec', parseLoop args spec = .ok spec' → GoodSpec spec' := by
  induction args, spec using parseLoop.induct
  case case1 spec =>
    intro hg spec' h
    simp only [parseLoop, Except.ok.injEq] at h
    exact h ▸ hg
  case case2 spec =>
    intro hg spec' h
    simp [parseLoop] at h
  case case3 spec next rest2 v hscr ih =>
    intro hg spec' h
    simp [parseLoop, hscr] at h
    exact ih (GoodSpec_update_database hg (good_of_parse_next hscr)) spec' h
  case case4 spec next rest2 e hscr =>
    intro hg spec' h
    simp [parseLoop, hscr] at h
  case case5 opt rest spec hc1 hc2 v hscr ih =>
    intro hg spec' h
    rw [parseLoop.eq_def] at h
    simp [hc1, hc2, hscr] at h
    exact ih (GoodSpec_update_database hg (good_of_parse_equal hscr)) spec' h
  case case6 opt rest spec hc1 hc2 e hscr =>
    intro hg spec' h
    rw [parseLoop.eq_def] at h
    simp [hc1, hc2, hscr] at h
  case case7 spec hc1 hc2 =>
    intro hg spec' h
    simp [parseLoop, hc1, hc2] at h
  case case8 spec next rest2 v hscr hc1 hc2 ih =>
    intro hg spec' h
    simp [parseLoop, hc1, hc2, hscr] at h
    exact ih (GoodSpec_update_username hg (good_of_parse_next hscr)) spec' h
  case case9 spec next rest2 e hscr hc1 hc2 =>
    intro hg spec' h
    simp [parseLoop, hc1, hc2, hscr] at h
  case case10 opt rest spec hc1 hc2 hc3 hc4 v hscr ih =>
    intro hg spec' h
    rw [parseLoop.eq_def] at h
    simp [hc1, hc2, hc3, hc4, hscr] at h
    exact ih (GoodSpec_update_username hg (good_of_parse_equal hscr)) spec' h
  case case11 opt rest spec hc1 hc2 hc3 hc4 e hscr =>
    intro hg spec' h
    rw [parseLoop.eq_def] at h
    simp [hc1, hc2, hc3, hc4, hscr] at h
  case case12 spec hc1 hc2 hc3 hc4 =>
    intro hg spec' h
    simp [parseLoop, hc1, hc2, hc3, hc4] at h
  case case13 spec next rest2 v hscr hc1 hc2 hc3 hc4 ih =>
    intro hg spec' h
    simp [parseLoop, hc1, hc2, hc3, hc4, hscr] at h
    exact ih (GoodSpec_update_host hg (good_of_parse_next hscr)) spec' h
  case case14 spec next rest2 e hscr hc1 hc2 hc3 hc4 =>
    intro hg spec' h
    simp [parseLoop, hc1, hc2, hc3, hc4, hscr] at h
  case case15 opt rest spec hc1 hc2 hc3 hc4 hc5 hc6 v hscr ih =>
    intro hg spec' h
    rw [parseLoop.eq_def] at h
    simp [hc1, hc2, hc3, hc4, hc5, hc6, hscr] at h
    exact ih (GoodSpec_update_host hg (good_of_parse_equal hscr)) spec' h
  case case16 opt rest spec hc1 hc2 hc3 hc4 hc5 hc6 e hscr =>
    intro hg spec' h
    rw [parseLoop.eq_def] at h
    simp [hc1, hc2, hc3, hc4, hc5, hc6, hscr] at h
    simp [str] at h
  case case17 opt rest spec hc1 hc2 hc3 hc4 hc5 hc6 hc7 v hscr ih =>
    intro hg spec' h
    rw [parseLoop.eq_def] at h
    simp [hc1, hc2, hc3, hc4, hc5, hc6, hc7, hscr] at h
    exact ih (GoodSpec_update_hostaddr hg (good_of_parse_equal hscr)) spec' h
  case case18 opt rest spec hc1 hc2 hc3 hc4 hc5 hc6 hc7 e hscr =>
    intro hg spec' h
    rw [parseLoop.eq_def] at h
    simp [hc1, hc2, hc3, hc4, hc5, hc6, hc7, hscr] at h
    simp [str] at h
  case case19 spec hc1 hc2 hc3 hc4 hc5 hc6 hc7 =>
    intro hg spec' h
    simp [parseLoop, hc1, hc2, hc3, hc4, hc5, hc6, hc7] at h
  case case20 spec next rest2 v hscr hc1 hc2 hc3 hc4 hc5 hc6 hc7 ih =>
    intro hg spec' h
    simp [parseLoop, hc1, hc2, hc3, hc4, hc5, hc6, hc7, hscr] at h
    exact ih (GoodSpec_update_port hg (good_of_parse_next hscr)) spec' h
  case case21 spec next rest2 e hscr hc1 hc2 hc3 hc4 hc5 hc6 hc7 =>
    intro hg spec' h
    simp [parseLoop, hc1, hc2, hc3, hc4, hc5, hc6, hc7, hscr] at h
  case case22 opt rest spec hc1 hc2 hc3 hc4 hc5 hc6 hc7 hc8 hc9 v hscr ih =>
    intro hg spec' h
    rw [parseLoop.eq_def] at h
    simp [hc1, hc2, hc3, hc4, hc5, hc6, hc7, hc8, hc9, hscr] at h
    exact ih (GoodSpec_update_port hg (good_of_parse_equal hscr)) spec' h
  case case23 opt rest spec hc1 hc2 hc3 hc4 hc5 hc6 hc7 hc8 hc9 e hscr =>
    intro hg spec' h
    rw [parseLoop.eq_def] at h
    simp [hc1, hc2, hc3, hc4, hc5, hc6, hc7, hc8, hc9, hscr] at h
  case case24 spec hc1 hc2 hc3 hc4 hc5 hc6 hc7 hc8 hc9 =>
    intro hg spec' h
    simp [parseLoop, hc1, hc2, hc3, hc4, hc5, hc6, hc7, hc8, hc9] at h
  case case25 spec next rest2 v hscr hc1 hc2 hc3 hc4 hc5 hc6 hc7 hc8 hc9 ih =>
    intro hg spec' h
    simp [parseLoop, hc1, hc2, hc3, hc4, hc5, hc6, hc7, hc8, hc9, hscr] at h
    exact ih (GoodSpec_update_timeout hg (good_of_parse_next hscr)) spec' h
  case case26 spec next rest2 e hscr hc1 hc2 hc3 hc4 hc5 hc6 hc7 hc8 hc9 =>
    intro hg spec' h
    simp [parseLoop, hc1, hc2, hc3, hc4, hc5, hc6, hc7, hc8, hc9, hscr] at h
  case case27 opt rest spec hc1 hc2 hc3 hc4 hc5 hc6 hc7 hc8 hc9 hc10 hc11 v hscr ih =>
    intro hg spec' h
    rw [parseLoop.eq_def] at h
    simp [hc1, hc2, hc3, hc4, hc5, hc6, hc7, hc8, hc9, hc10, hc11, hscr] at h
    exact ih (GoodSpec_update_timeout hg (good_of_parse_equal hscr)) spec' h
  case case28 opt rest spec hc1 hc2 hc3 hc4 hc5 hc6 hc7 hc8 hc9 hc10 hc11 e hscr =>
    intro hg spec' h
    rw [parseLoop.eq_def] at h
    simp [hc1, hc2, hc3, hc4, hc5, hc6, hc7, hc8, hc9, hc10, hc11, hscr] at h
  case case29 opt rest spec hc1 hc2 hc3 hc4 hc5 hc6 hc7 hc8 hc9 hc10 hc11 ih =>
    intro hg spec' h
    rw [parseLoop.eq_def] at h
    simp [hc1, hc2, hc3, hc4, hc5, hc6, hc7, hc8, hc9, hc10, hc11] at h
    exact ih hg spec' h

/-! ### Unfolding the run function -/

lemma pg_check_conn_err {args : List Str} {e : ParseError} (h : parseArgs args = .error e)
    (pgdebug : Option Str) (pr : ProbeResult) :
    pg_check_conn args pgdebug pr =
      { output := [(Channel.stderr, str "Error: " ++ e.msg)], exitCode := -1 } := by
  simp only [pg_check_conn, h]

lemma pg_check_conn_ok {args : List Str} {spec : ConnSpec} (h : parseArgs args = .ok spec)
    (pgdebug : Option Str) (pr : ProbeResult) :
    pg_check_conn args pgdebug pr =
      if pr.handle = false ∨ pr.status ≠ 0 then
        { output := debugEcho pgdebug (build spec) ++ [(Channel.stdout, str "Error: " ++ pr.errMsg)],
          exitCode := if pr.handle then (pr.status : Int) else -1 }
      else { output := debugEcho pgdebug (build spec), exitCode := 0 } := by
  simp only [pg_check_conn, h]

/-! ### Claims -/

/-- C1: for every run, the output channel and exit code are exactly the
spec's reporter table applied to the run's outcome — Success prints
nothing beyond the optional debug echo and exits 0; a classified
connection failure prints `Error: <msg>` on stdout and exits with the
library status code when a handle was obtained, else `-1`; a parse
error (an unexpected failure) prints `Error: <msg>` on stderr and
exits `-1`. -/
theorem C1_reporter_mapping (args : List Str) (pgdebug : Option Str) (pr : ProbeResult) :
    pg_check_conn args pgdebug pr =
      { output := debugLines args pgdebug ++ (spec_report (runOutcome args pr)).output,
        exitCode := (spec_report (runOutcome args pr)).exitCode } := by
  cases hp : parseArgs args with
  | error e =>
    rw [pg_check_conn_err hp]
    simp [debugLines, runOutcome, spec_report, hp]
  | ok spec =>
    rw [pg_check_conn_ok hp]
    by_cases hc : pr.handle = false ∨ pr.status ≠ 0
    · rw [if_pos hc]
      simp [debugLines, runOutcome, spec_report, hp, hc]
    · rw [if_neg hc]
      simp [debugLines, runOutcome, spec_report, hp, hc]

/-- C2 counterexample: with the debug flag set to `10` — a value that
merely begins with `1` and is not the literal `1` — the rendered
connection string is still echoed to standard output, so the claim
that only the literal value `1` echoes is false on the code. -/
theorem C2_counterexample :
    str "10" ≠ str "1" ∧
    pg_check_conn [] (some (str "10")) { handle := true, status := 0, errMsg := [] } =
      { output := [(Channel.stdout, str "Conn string: ")], exitCode := 0 } := by
  decide

/-- C2 (amended): for every run whose arguments parse, the rendered
connection string is echoed to stdout (as the first output line,
before any probe report) iff the debug-verbosity environment flag is
set and its first character is `1`. -/
theorem C2_debug_echo_iff_first_char_one (args : List Str) (spec : ConnSpec)
    (pgdebug : Option Str) (pr : ProbeResult) (h : parseArgs args = .ok spec) :
    (pg_check_conn args pgdebug pr).output.head? =
        some (Channel.stdout, str "Conn string: " ++ build spec)
      ↔ ∃ d, pgdebug = some d ∧ d.head? = some '1' := by
  rw [pg_check_conn_ok h]
  by_cases hc : pr.handle = false ∨ pr.status ≠ 0
  · rw [if_pos hc]
    cases pgdebug with
    | none => simp [debugEcho, str]
    | some d =>
      by_cases hd : d.head? = some '1'
      · simp [debugEcho, hd]
      · simp [debugEcho, hd, str]
  · rw [if_neg hc]
    cases pgdebug with
    | none => simp [debugEcho]
    | some d =>
      by_cases hd : d.head? = some '1'
      · simp [debugEcho, hd]
      · simp [debugEcho, hd]

/-- Witness for C2 (amended) at a concrete input. -/
theorem C2_debug_echo_iff_first_char_one_witness :
    parseArgs [] = .ok {} ∧
    ((pg_check_conn [] (some (str "1")) { handle := true, status := 0, errMsg := [] }).output.head? =
        some (Channel.stdout, str "Conn string: " ++ build {})
      ↔ ∃ d, some (str "1") = some d ∧ d.head? = some '1') :=
  ⟨by decide,
   C2_debug_echo_iff_first_char_one [] {} (some (str "1"))
     { handle := true, status := 0, errMsg := [] } (by decide)⟩

/-- C3: a short-form option (here `-d`, the claim's example; all five
short options share `parse_next_arg`) consumes the next token as its
value and advances the cursor past both tokens; it fails with a parse
error naming the field exactly when there is no next token, or the
next token begins with `-`, or the next token trims to empty. -/
theorem C3_short_form_consumes_next (v : Str) (rest : List Str) (spec : ConnSpec) (m : Str) :
    parse_next_arg [] m = .error (.out_of_range m)
    ∧ (v.head? = some '-' ∨ trim v = [] →
        parse_next_arg (v :: rest) m = .error (.out_of_range m)
        ∧ parseLoop (str "-d" :: v :: rest) spec =
            .error (.out_of_range (str "missing database argument")))
    ∧ (v.head? ≠ some '-' → trim v ≠ [] →
        parse_next_arg (v :: rest) m = .ok (trim v)
        ∧ parseLoop (str "-d" :: v :: rest) spec =
            parseLoop rest { spec with database := trim v })
    ∧ parseLoop [str "-d"] spec = .error (.out_of_range (str "missing database argument")) := by
  refine ⟨parse_next_arg_nil m, ?_, ?_, by simp [parseLoop]⟩
  · intro h
    refine ⟨?_, parseLoop_short_d_err v rest spec h⟩
    rcases h with h | h
    · exact parse_next_arg_dash rest h
    · exact parse_next_arg_blank rest h
  · intro h1 h2
    exact ⟨parse_next_arg_ok rest h1 h2, parseLoop_short_d v rest spec h1 h2⟩

/-- Witness for C3 at concrete inputs: a dash-value fails, a plain
value is consumed and skipped. -/
theorem C3_short_form_consumes_next_witness :
    (List.head? (str "-x") = some '-' ∨ trim (str "-x") = []) ∧
    List.head? (str "sales") ≠ some '-' ∧ trim (str "sales") ≠ [] ∧
    parse_next_arg [str "-x"] (str "m") = .error (.out_of_range (str "m")) ∧
    parse_next_arg [str "sales"] (str "m") = .ok (trim (str "sales")) ∧
    parseLoop [str "-d", str "sales"] {} = parseLoop [] { database := trim (str "sales") } :=
  ⟨by decide, by decide, by decide,
   ((C3_short_form_consumes_next (str "-x") [] {} (str "m")).2.1 (by decide)).1,
   ((C3_short_form_consumes_next (str "sales") [] {} (str "m")).2.2.1 (by decide) (by decide)).1,
   ((C3_short_form_consumes_next (str "sales") [] {} (str "m")).2.2.1 (by decide) (by decide)).2⟩

/-- C4: a long-form option's value is the trimmed substring after the
first `=` of the same token; parsing fails with the field's parse
error exactly when the token has no `=` or the text after the first
`=` trims to empty. -/
theorem C4_long_form_value_after_eq (pre post arg m : Str) :
    ('=' ∉ arg → parse_equal_arg arg m = .error (.runtime_error m))
    ∧ ('=' ∉ pre →
        parse_equal_arg (pre ++ '=' :: post) m =
          if trim post = [] then .error (.runtime_error m) else .ok (trim post)) :=
  ⟨fun h => parse_equal_arg_no_eq h m, fun h => parse_equal_arg_append post h⟩

/-- Witness for C4 at concrete inputs. -/
theorem C4_long_form_value_after_eq_witness :
    '=' ∉ str "--dbname" ∧
    parse_equal_arg (str "--dbname") (str "m") = .error (.runtime_error (str "m")) ∧
    parse_equal_arg (str "--dbname" ++ '=' :: str " x ") (str "m") =
      (if trim (str " x ") = [] then .error (.runtime_error (str "m"))
       else .ok (trim (str " x "))) ∧
    parse_equal_arg (str "--dbname" ++ '=' :: str " ") (str "m") =
      (if trim (str " ") = [] then .error (.runtime_error (str "m"))
       else .ok (trim (str " "))) :=
  ⟨by decide,
   (C4_long_form_value_after_eq (str "--dbname") [] (str "--dbname") (str "m")).1 (by decide),
   (C4_long_form_value_after_eq (str "--dbname") (str " x ") (str "--dbname") (str "m")).2
     (by decide),
   (C4_long_form_value_after_eq (str "--dbname") (str " ") (str "--dbname") (str "m")).2
     (by decide)⟩

/-- C5: whenever parsing succeeds, every field of the resulting
Connection Specification is either absent (the empty string, never
stored from an option) or non-empty with no leading or trailing
whitespace; a blank value never reaches a field — it raises a parse
error inside `parse_next_arg` / `parse_equal_arg` instead. -/
theorem C5_field_invariant (args : List Str) (spec : ConnSpec)
    (h : parseArgs args = .ok spec) :
    (GoodField spec.database ∧ GoodField spec.username ∧ GoodField spec.host ∧
      GoodField spec.hostaddr ∧ GoodField spec.port ∧ GoodField spec.timeout)
    ∧ (∀ v rest m, trim v = [] → parse_next_arg (v :: rest) m = .error (.out_of_range m))
    ∧ (∀ pre v m, '=' ∉ pre → trim v = [] →
        parse_equal_arg (pre ++ '=' :: v) m = .error (.runtime_error m)) := by
  refine ⟨parseLoop_good args {} GoodSpec_empty spec h, ?_, ?_⟩
  · intro v rest m hv
    exact parse_next_arg_blank rest hv
  · intro pre v m hpre hv
    rw [parse_equal_arg_append v hpre, if_pos hv]

/-- Witness for C5 at a concrete input (note the stored value is the
trimmed token). -/
theorem C5_field_invariant_witness :
    parseArgs [str "-d", str " sales "] = .ok { database := str "sales" } ∧
    GoodField ({ database := str "sales" } : ConnSpec).database :=
  ⟨by decide,
   (C5_field_invariant [str "-d", str " sales "] { database := str "sales" } (by decide)).1.1⟩

/-- The six builder fields with their keys, in the fixed emission
order of the source: dbname, user, hostaddr, host, port,
connect_timeout. -/
def orderedFields (spec : ConnSpec) : List (Str × Str) :=
  [(str "dbname=", spec.database), (str "user=", spec.username),
   (str "hostaddr=", spec.hostaddr), (str "host=", spec.host),
   (str "port=", spec.port), (str "connect_timeout=", spec.timeout)]

/-- C6: the builder emits `key=value ` exactly for the present
(non-empty) fields, in the fixed order dbname, user, hostaddr, host,
port, connect_timeout — independent of command-line order, since it
is a function of the specification alone — and the empty
specification renders the empty string. -/
theorem C6_builder_order_and_presence (spec : ConnSpec) :
    build spec =
      ((orderedFields spec).filter (fun kv => !is_empty kv.2)).foldl
        (fun acc kv => acc ++ kv.1 ++ kv.2 ++ str " ") []
    ∧ build {} = [] := by
  constructor
  · simp only [build, orderedFields]
    cases spec.database <;> cases spec.username <;> cases spec.hostaddr <;>
      cases spec.host <;> cases spec.port <;> cases spec.timeout <;>
      simp [is_empty]
  · rfl

/-- C7 counterexample: for the value `-x` the two forms differ — the
short form `-d -x` is a parse error (the next token begins with `-`)
while the long form `--dbname=-x` succeeds and stores `-x`, so the
claim quantified over every value string is false. -/
theorem C7_counterexample :
    parseArgs [str "-d", str "-x"] = .error (.out_of_range (str "missing database argument"))
    ∧ parseArgs [str "--dbname=-x"] = .ok { database := str "-x" } := by
  decide

/-- C7 (amended): for every value whose first character is not `-`
and which does not trim to empty, the short and the long form of each
of the five fields having both forms yield identical Connection
Specifications. -/
theorem C7_short_long_agree (v : Str)
    (h1 : v.head? ≠ some '-') (h2 : trim v ≠ []) :
    parseArgs [str "-d", v] = parseArgs [str "--dbname=" ++ v]
    ∧ parseArgs [str "-U", v] = parseArgs [str "--username=" ++ v]
    ∧ parseArgs [str "-h", v] = parseArgs [str "--hostname=" ++ v]
    ∧ parseArgs [str "-p", v] = parseArgs [str "--port=" ++ v]
    ∧ parseArgs [str "-t", v] = parseArgs [str "--timeout=" ++ v] := by
  unfold parseArgs
  refine ⟨?_, ?_, ?_, ?_, ?_⟩
  · rw [parseLoop_short_d v [] {} h1 h2, parseLoop_long_dbname v [] {}, if_neg h2]
  · rw [parseLoop_short_U v [] {} h1 h2, parseLoop_long_username v [] {}, if_neg h2]
  · rw [parseLoop_short_h v [] {} h1 h2, parseLoop_long_hostname v [] {}, if_neg h2]
  · rw [parseLoop_short_p v [] {} h1 h2, parseLoop_long_port v [] {}, if_neg h2]
  · rw [parseLoop_short_t v [] {} h1 h2, parseLoop_long_timeout v [] {}, if_neg h2]

/-- Witness for C7 (amended) at a concrete value. -/
theorem C7_short_long_agree_witness :
    List.head? (str "sales") ≠ some '-' ∧ trim (str "sales") ≠ [] ∧
    parseArgs [str "-d", str "sales"] = parseArgs [str "--dbname=" ++ str "sales"] :=
  ⟨by decide, by decide, (C7_short_long_agree (str "sales") (by decide) (by decide)).1⟩

/-- C8: every run whose outcome is not Success prints an `Error: `
line on some channel and returns a non-zero exit code — no failure
path is silent or exits 0. -/
theorem C8_failures_are_loud (args : List Str) (pgdebug : Option Str) (pr : ProbeResult)
    (h : runOutcome args pr ≠ .success) :
    (pg_check_conn args pgdebug pr).exitCode ≠ 0
    ∧ ∃ ch m, (ch, str "Error: " ++ m) ∈ (pg_check_conn args pgdebug pr).output := by
  cases hp : parseArgs args with
  | error e =>
    rw [pg_check_conn_err hp]
    exact ⟨by simp, ⟨Channel.stderr, e.msg, by simp⟩⟩
  | ok spec =>
    have hc : pr.handle = false ∨ pr.status ≠ 0 := by
      by_contra hcc
      push_neg at hcc
      exact h (by simp [runOutcome, hp, hcc.1, hcc.2])
    rw [pg_check_conn_ok hp, if_pos hc]
    constructor
    · cases hh : pr.handle with
      | false => simp
      | true =>
        have hs : pr.status ≠ 0 := by
          rcases hc with hb | hs
          · rw [hh] at hb; exact absurd hb (by simp)
          · exact hs
        simp [hs]
    · exact ⟨Channel.stdout, pr.errMsg, by simp⟩

/-- Witness for C8: a parse error run and a refused-connection run. -/
theorem C8_failures_are_loud_witness :
    runOutcome [str "-d"] { handle := true, status := 1, errMsg := [] } ≠ .success ∧
    ((pg_check_conn [str "-d"] none { handle := true, status := 1, errMsg := [] }).exitCode ≠ 0
      ∧ ∃ ch m, (ch, str "Error: " ++ m) ∈
          (pg_check_conn [str "-d"] none { handle := true, status := 1, errMsg := [] }).output) :=
  ⟨by decide,
   C8_failures_are_loud [str "-d"] none { handle := true, status := 1, errMsg := [] } (by decide)⟩

/-- C9: the spec's round-trip example — parsing
`-d sales -U alice -h db.internal -p 5433 -t 5` and building yields
exactly `dbname=sales user=alice host=db.internal port=5433 connect_timeout=5 `
with the single trailing space. -/
theorem C9_round_trip :
    parseArgs [str "-d", str "sales", str "-U", str "alice", str "-h", str "db.internal",
        str "-p", str "5433", str "-t", str "5"] =
      .ok { database := str "sales", username := str "alice", host := str "db.internal",
            port := str "5433", timeout := str "5" }
    ∧ build { database := str "sales", username := str "alice", host := str "db.internal",
              port := str "5433", timeout := str "5" } =
        str "dbname=sales user=alice host=db.internal port=5433 connect_timeout=5 " := by
  decide

/-- C10: a token consumed as a short option's value is skipped by the
cursor and never matched against the option table — for each of the
five short options, parsing continues at the list after the value with
only that option's field updated; in particular `-d port` stores
`port` as the database and leaves the port field unset. -/
theorem C10_value_token_never_an_option (v : Str) (rest : List Str) (spec : ConnSpec)
    (h1 : v.head? ≠ some '-') (h2 : trim v ≠ []) :
    parseLoop (str "-d" :: v :: rest) spec = parseLoop rest { spec with database := trim v }
    ∧ parseLoop (str "-U" :: v :: rest) spec = parseLoop rest { spec with username := trim v }
    ∧ parseLoop (str "-h" :: v :: rest) spec = parseLoop rest { spec with host := trim v }
    ∧ parseLoop (str "-p" :: v :: rest) spec = parseLoop rest { spec with port := trim v }
    ∧ parseLoop (str "-t" :: v :: rest) spec = parseLoop rest { spec with timeout := trim v }
    ∧ parseArgs [str "-d", str "port"] = .ok { database := str "port" } :=
  ⟨parseLoop_short_d v rest spec h1 h2, parseLoop_short_U v rest spec h1 h2,
   parseLoop_short_h v rest spec h1 h2, parseLoop_short_p v rest spec h1 h2,
   parseLoop_short_t v rest spec h1 h2, by decide⟩

/-- Witness for C10 at a concrete option-like value. -/
theorem C10_value_token_never_an_option_witness :
    List.head? (str "port") ≠ some '-' ∧ trim (str "port") ≠ [] ∧
    parseLoop (str "-d" :: str "port" :: []) {} =
      parseLoop [] { database := trim (str "port") } :=
  ⟨by decide, by decide,
   (C10_value_token_never_an_option (str "port") [] {} (by decide) (by decide)).1⟩

end PgCheckConn
